import Mathlib

/-!
Verification of the OBJ-to-mesh conversion core (`src/loader.rs`).

The loader parses a byte buffer with the external `obj` crate, classifies
the polygons into a capability tier in (1, 2, 3) by a minimum-fold, and
writes position, normal, UV and index buffers into a mesh sink.

Modelling choices:
* `f32` values are modelled symbolically as rationals (`F := ℚ`); the code
  performs only pass-through and the single subtraction `1.0 - v.texture[1]`.
* The external `obj` crate (parsing and the typed re-projections
  `obj::Obj::new`) is an out-of-scope collaborator; its results are oracle
  fields of the input (`RawObj.toPosition` etc.), matching the interface
  the loader consumes.
* In-place mutation of `Mesh` / `LoadContext` becomes explicit state
  passing: functions return the result together with the updated state.
-/

namespace BevyObj

/-- Scalar component type modelling `f32` values symbolically. -/
abbrev F := ℚ

/-- A 3-component vector, modelling `[f32; 3]`. -/
structure V3 where
  x : F
  y : F
  z : F
  deriving DecidableEq, Repr

/-- The all-zero vector `[0., 0., 0.]`. -/
def zero3 : V3 := ⟨0, 0, 0⟩

/-- Raw polygon record (`obj::raw::object::Polygon`): which attribute
combination the face's vertex references carry. `P` = position only,
`PT` = position+texture, `PN` = position+normal, `PNT` = all three. -/
inductive Polygon where
  | P (vs : List Nat)
  | PT (vs : List (Nat × Nat))
  | PN (vs : List (Nat × Nat))
  | PNT (vs : List (Nat × Nat × Nat))
  deriving DecidableEq, Repr

/-- Typed vertex shape `obj::Position`. -/
structure Position where
  position : V3
  deriving DecidableEq, Repr

/-- Typed vertex shape `obj::Vertex` (position + normal). -/
structure Vertex where
  position : V3
  normal : V3
  deriving DecidableEq, Repr

/-- Typed vertex shape `obj::TexturedVertex` (position + normal + texture). -/
structure TexturedVertex where
  position : V3
  normal : V3
  texture : V3
  deriving DecidableEq, Repr

/-- Abstract diagnostic produced by the external obj crate (`obj::ObjError`). -/
structure ParseErr where
  msg : String
  deriving DecidableEq, Repr

/-- The external crate's typed view `obj::Obj<V, u32>`: a vertex list and
the resolved flat triangle-corner index list (`u32` indices as `Nat`). -/
structure TypedObj (V : Type) where
  vertices : List V
  indices : List Nat
  deriving DecidableEq, Repr

/-- `obj::raw::RawObj` as consumed by the loader: its polygon records,
together with the external crate's fallible typed re-projections
(`obj::Obj::new` at each of the three vertex shapes), modelled as oracle
fields since that code is an external collaborator. -/
structure RawObj where
  polygons : List Polygon
  toPosition : Except ParseErr (TypedObj Position)
  toVertex : Except ParseErr (TypedObj Vertex)
  toTextured : Except ParseErr (TypedObj TexturedVertex)

/-- The input byte buffer, represented by the outcome of the external
`obj::raw::parse_obj` on it. -/
structure ObjInput where
  parse : Except ParseErr RawObj

/-- The loader's error type `ObjError`: `Gltf` wraps the upstream parse
diagnostic (via `#[from]`), `UnknownVertexFormat` is the tier guard. -/
inductive ObjError where
  | Gltf (e : ParseErr)
  | UnknownVertexFormat
  deriving DecidableEq, Repr

/-- Mesh topology; the loader always constructs a `TriangleList` mesh. -/
inductive PrimitiveTopology where
  | TriangleList
  deriving DecidableEq, Repr

/-- The mesh sink: named attribute slots plus an index slot, each empty
until written. -/
structure Mesh where
  topology : PrimitiveTopology
  attrPosition : Option (List V3)
  attrNormal : Option (List V3)
  attrUv : Option (List V3)
  indices : Option (List Nat)
  deriving DecidableEq, Repr

/-- `Mesh::new(topology)`: all slots empty. -/
def Mesh.new (t : PrimitiveTopology) : Mesh :=
  { topology := t, attrPosition := none, attrNormal := none,
    attrUv := none, indices := none }

/-- `set_position_data`: write the position attribute. -/
def set_position_data (mesh : Mesh) (data : List V3) : Mesh :=
  { mesh with attrPosition := some data }

/-- `set_normal_data`: write the normal attribute. -/
def set_normal_data (mesh : Mesh) (data : List V3) : Mesh :=
  { mesh with attrNormal := some data }

/-- `set_uv_data`: write the UV attribute. -/
def set_uv_data (mesh : Mesh) (data : List V3) : Mesh :=
  { mesh with attrUv := some data }

/-- `set_mesh_indices`: copy the typed object's resolved index list
verbatim (`*i as u32` on a `u32` is the identity). -/
def set_mesh_indices {V : Type} (mesh : Mesh) (obj : TypedObj V) : Mesh :=
  { mesh with indices := some obj.indices }

/-- The tier fold of `load_obj_from_bytes` (loader.rs lines 53-61):
`pnt` starts at 3; a `P` record lowers it to `min pnt 1`, a `PN` record
to `min pnt 2`, every other variant leaves it unchanged. -/
def classify (polys : List Polygon) : Nat :=
  polys.foldl (fun pnt polygon =>
    match polygon with
    | .P _ => min pnt 1
    | .PN _ => min pnt 2
    | _ => pnt) 3

/-- The `match pnt` block of `load_obj_from_bytes` (loader.rs lines
63-93): per-tier typed re-projection followed by the four buffer writes,
with the in-place mutation made explicit (returns the `Result` together
with the mesh state after the writes that happened). -/
def build (pnt : Nat) (raw : RawObj) (mesh : Mesh) :
    Except ObjError Unit × Mesh :=
  match pnt with
  | 1 =>
    match raw.toPosition with
    | .error e => (.error (.Gltf e), mesh)
    | .ok obj =>
      let mesh := set_position_data mesh (obj.vertices.map (fun v => v.position))
      let mesh := set_normal_data mesh (obj.vertices.map (fun _ => zero3))
      let mesh := set_uv_data mesh (obj.vertices.map (fun _ => zero3))
      let mesh := set_mesh_indices mesh obj
      (.ok (), mesh)
  | 2 =>
    match raw.toVertex with
    | .error e => (.error (.Gltf e), mesh)
    | .ok obj =>
      let mesh := set_position_data mesh (obj.vertices.map (fun v => v.position))
      let mesh := set_normal_data mesh (obj.vertices.map (fun v => v.normal))
      let mesh := set_uv_data mesh (obj.vertices.map (fun _ => zero3))
      let mesh := set_mesh_indices mesh obj
      (.ok (), mesh)
  | 3 =>
    match raw.toTextured with
    | .error e => (.error (.Gltf e), mesh)
    | .ok obj =>
      let mesh := set_position_data mesh (obj.vertices.map (fun v => v.position))
      let mesh := set_normal_data mesh (obj.vertices.map (fun v => v.normal))
      let mesh := set_uv_data mesh (obj.vertices.map
        (fun v => V3.mk v.texture.x (1 - v.texture.y) v.texture.z))
      let mesh := set_mesh_indices mesh obj
      (.ok (), mesh)
  | _ => (.error .UnknownVertexFormat, mesh)

/-- `load_obj_from_bytes`: parse, classify, build. A parse failure is
wrapped by `ObjError::Gltf` (the `#[from]` conversion) and nothing is
written to the mesh. -/
def load_obj_from_bytes (input : ObjInput) (mesh : Mesh) :
    Except ObjError Unit × Mesh :=
  match input.parse with
  | .error e => (.error (.Gltf e), mesh)
  | .ok raw => build (classify raw.polygons) raw mesh

/-- The host load context, reduced to the slot the loader touches:
the registered default asset. -/
structure LoadContext where
  defaultAsset : Option Mesh
  deriving DecidableEq, Repr

/-- `load_obj`: build a fresh triangle-list mesh from the bytes and, on
success only, register it as the load's default asset. -/
def load_obj (input : ObjInput) (ctx : LoadContext) :
    Except ObjError Unit × LoadContext :=
  match load_obj_from_bytes input (Mesh.new .TriangleList) with
  | (.error e, _) => (.error e, ctx)
  | (.ok _, mesh) => (.ok (), { ctx with defaultAsset := some mesh })

/-- Spec-side rank of a record for the minimum-fold reading of the
classifier: position-only counts 1, position+normal counts 2, every
other variant is neutral (3). -/
def polyRank : Polygon → Nat
  | .P _ => 1
  | .PN _ => 2
  | _ => 3

/-- Spec-side classifier: the minimum of all records' ranks, starting
from 3. -/
def tierSpec (polys : List Polygon) : Nat :=
  (polys.map polyRank).foldr min 3

/-- Modelled from the spec: the external parser resolves every polygon
into a flat triangle list, so each successful typed re-projection carries
an index list whose length is a multiple of 3. -/
def ParserContract (raw : RawObj) : Prop :=
  (∀ t, raw.toPosition = .ok t → t.indices.length % 3 = 0) ∧
  (∀ t, raw.toVertex = .ok t → t.indices.length % 3 = 0) ∧
  (∀ t, raw.toTextured = .ok t → t.indices.length % 3 = 0)

/-- The vertex count at the chosen tier: the number of vertices of the
typed re-projection the builder consumes, when it succeeds. -/
def tierVertexCount (raw : RawObj) : Option Nat :=
  match classify raw.polygons with
  | 1 => raw.toPosition.toOption.map (fun t => t.vertices.length)
  | 2 => raw.toVertex.toOption.map (fun t => t.vertices.length)
  | 3 => raw.toTextured.toOption.map (fun t => t.vertices.length)
  | _ => none

/-! ### Classifier lemmas -/

lemma tierSpec_nil : tierSpec [] = 3 := rfl

lemma tierSpec_cons (p : Polygon) (ps : List Polygon) :
    tierSpec (p :: ps) = min (polyRank p) (tierSpec ps) := rfl

lemma tierSpec_le_three (polys : List Polygon) : tierSpec polys ≤ 3 := by
  induction polys with
  | nil => simp [tierSpec]
  | cons p ps ih => rw [tierSpec_cons]; omega

lemma one_le_polyRank (p : Polygon) : 1 ≤ polyRank p := by
  cases p <;> simp [polyRank]

lemma one_le_tierSpec (polys : List Polygon) : 1 ≤ tierSpec polys := by
  induction polys with
  | nil => simp [tierSpec]
  | cons p ps ih =>
    have := one_le_polyRank p
    rw [tierSpec_cons]
    omega

lemma classify_foldl_eq (polys : List Polygon) (acc : Nat) (hacc : acc ≤ 3) :
    polys.foldl (fun pnt polygon =>
      match polygon with
      | .P _ => min pnt 1
      | .PN _ => min pnt 2
      | _ => pnt) acc = min acc (tierSpec polys) := by
  induction polys generalizing acc with
  | nil => simp [tierSpec]; omega
  | cons p ps ih =>
    rw [List.foldl_cons, tierSpec_cons]
    have h3 := tierSpec_le_three ps
    cases p with
    | P vs =>
      rw [show (match Polygon.P vs with
        | .P _ => min acc 1 | .PN _ => min acc 2 | _ => acc) = min acc 1 from rfl]
      rw [ih _ (by omega), show polyRank (Polygon.P vs) = 1 from rfl]
      omega
    | PT vs =>
      rw [show (match Polygon.PT vs with
        | .P _ => min acc 1 | .PN _ => min acc 2 | _ => acc) = acc from rfl]
      rw [ih _ hacc, show polyRank (Polygon.PT vs) = 3 from rfl]
      omega
    | PN vs =>
      rw [show (match Polygon.PN vs with
        | .P _ => min acc 1 | .PN _ => min acc 2 | _ => acc) = min acc 2 from rfl]
      rw [ih _ (by omega), show polyRank (Polygon.PN vs) = 2 from rfl]
      omega
    | PNT vs =>
      rw [show (match Polygon.PNT vs with
        | .P _ => min acc 1 | .PN _ => min acc 2 | _ => acc) = acc from rfl]
      rw [ih _ hacc, show polyRank (Polygon.PNT vs) = 3 from rfl]
      omega

lemma classify_eq_tierSpec (polys : List Polygon) :
    classify polys = tierSpec polys := by
  have h := classify_foldl_eq polys 3 le_rfl
  have h3 := tierSpec_le_three polys
  unfold classify
  omega

lemma tierSpec_le_of_mem {p : Polygon} {polys : List Polygon} (h : p ∈ polys) :
    tierSpec polys ≤ polyRank p := by
  induction polys with
  | nil => cases h
  | cons q qs ih =>
    rw [tierSpec_cons]
    rcases List.mem_cons.mp h with rfl | hmem
    · omega
    · have := ih hmem; omega

lemma classify_one_of_P {vs : List Nat} {polys : List Polygon}
    (h : Polygon.P vs ∈ polys) : classify polys = 1 := by
  rw [classify_eq_tierSpec]
  have h1 := one_le_tierSpec polys
  have h2 := tierSpec_le_of_mem h
  simp [polyRank] at h2
  omega

lemma classify_two_of_all_PN {polys : List Polygon} (hne : polys ≠ [])
    (hPN : ∀ p ∈ polys, ∃ vs, p = Polygon.PN vs) : classify polys = 2 := by
  rw [classify_eq_tierSpec]
  induction polys with
  | nil => exact absurd rfl hne
  | cons q qs ih =>
    obtain ⟨vs, rfl⟩ := hPN q (List.mem_cons_self q qs)
    rw [tierSpec_cons]
    rcases Decidable.em (qs = []) with rfl | hqs
    · simp [tierSpec, polyRank]
    · rw [ih hqs (fun p hp => hPN p (List.mem_cons_of_mem _ hp))]
      simp [polyRank]

lemma classify_range (polys : List Polygon) :
    classify polys = 1 ∨ classify polys = 2 ∨ classify polys = 3 := by
  rw [classify_eq_tierSpec]
  have h1 := one_le_tierSpec polys
  have h3 := tierSpec_le_three polys
  omega

/-! ### Builder lemmas -/

lemma build_one_ok {raw : RawObj} {t : TypedObj Position}
    (ht : raw.toPosition = .ok t) (mesh : Mesh) :
    build 1 raw mesh = (.ok (), { mesh with
      attrPosition := some (t.vertices.map fun v => v.position),
      attrNormal := some (t.vertices.map fun _ => zero3),
      attrUv := some (t.vertices.map fun _ => zero3),
      indices := some t.indices }) := by
  simp [build, ht, set_position_data, set_normal_data, set_uv_data,
    set_mesh_indices]

lemma build_two_ok {raw : RawObj} {t : TypedObj Vertex}
    (ht : raw.toVertex = .ok t) (mesh : Mesh) :
    build 2 raw mesh = (.ok (), { mesh with
      attrPosition := some (t.vertices.map fun v => v.position),
      attrNormal := some (t.vertices.map fun v => v.normal),
      attrUv := some (t.vertices.map fun _ => zero3),
      indices := some t.indices }) := by
  simp [build, ht, set_position_data, set_normal_data, set_uv_data,
    set_mesh_indices]

lemma build_three_ok {raw : RawObj} {t : TypedObj TexturedVertex}
    (ht : raw.toTextured = .ok t) (mesh : Mesh) :
    build 3 raw mesh = (.ok (), { mesh with
      attrPosition := some (t.vertices.map fun v => v.position),
      attrNormal := some (t.vertices.map fun v => v.normal),
      attrUv := some (t.vertices.map
        fun v => V3.mk v.texture.x (1 - v.texture.y) v.texture.z),
      indices := some t.indices }) := by
  simp [build, ht, set_position_data, set_normal_data, set_uv_data,
    set_mesh_indices]

lemma build_one_err {raw : RawObj} {e : ParseErr}
    (ht : raw.toPosition = .error e) (mesh : Mesh) :
    build 1 raw mesh = (.error (.Gltf e), mesh) := by
  simp [build, ht]

lemma build_two_err {raw : RawObj} {e : ParseErr}
    (ht : raw.toVertex = .error e) (mesh : Mesh) :
    build 2 raw mesh = (.error (.Gltf e), mesh) := by
  simp [build, ht]

lemma build_three_err {raw : RawObj} {e : ParseErr}
    (ht : raw.toTextured = .error e) (mesh : Mesh) :
    build 3 raw mesh = (.error (.Gltf e), mesh) := by
  simp [build, ht]

lemma build_error_mesh_eq {pnt : Nat} {raw : RawObj} {mesh : Mesh}
    {err : ObjError} (h : (build pnt raw mesh).fst = .error err) :
    (build pnt raw mesh).snd = mesh := by
  rcases pnt with _ | _ | _ | _ | pnt
  · rfl
  · cases ht : raw.toPosition with
    | error e => simp [build, ht]
    | ok t => rw [build_one_ok ht] at h; exact absurd h (by simp)
  · cases ht : raw.toVertex with
    | error e => simp [build, ht]
    | ok t => rw [build_two_ok ht] at h; exact absurd h (by simp)
  · cases ht : raw.toTextured with
    | error e => simp [build, ht]
    | ok t => rw [build_three_ok ht] at h; exact absurd h (by simp)
  · rfl

lemma build_unknown_iff (pnt : Nat) (raw : RawObj) (mesh : Mesh) :
    (build pnt raw mesh).fst = .error .UnknownVertexFormat ↔
      (pnt ≠ 1 ∧ pnt ≠ 2 ∧ pnt ≠ 3) := by
  rcases pnt with _ | _ | _ | _ | pnt
  · simp [build]
  · cases ht : raw.toPosition with
    | error e => simp [build, ht]
    | ok t => rw [build_one_ok ht]; simp
  · cases ht : raw.toVertex with
    | error e => simp [build, ht]
    | ok t => rw [build_two_ok ht]; simp
  · cases ht : raw.toTextured with
    | error e => simp [build, ht]
    | ok t => rw [build_three_ok ht]; simp
  · simp [build]

lemma load_obj_from_bytes_ok {input : ObjInput} {raw : RawObj}
    (hp : input.parse = .ok raw) (mesh : Mesh) :
    load_obj_from_bytes input mesh = build (classify raw.polygons) raw mesh := by
  unfold load_obj_from_bytes
  rw [hp]

lemma load_obj_from_bytes_err {input : ObjInput} {e : ParseErr}
    (hp : input.parse = .error e) (mesh : Mesh) :
    load_obj_from_bytes input mesh = (.error (.Gltf e), mesh) := by
  unfold load_obj_from_bytes
  rw [hp]

/-! ### Claims -/

/-- C1: the Format Classifier is a minimum-fold: it starts at tier 3,
lowers to `min tier 1` on a position-only record and to `min tier 2` on a
position+normal record, every other variant (including position+texture)
leaves the tier unchanged; the result equals the minimum of the records'
ranks so classified and always lies in (1, 2, 3). -/
theorem claim_C1 (polys : List Polygon) :
    classify polys = tierSpec polys ∧
    (classify polys = 1 ∨ classify polys = 2 ∨ classify polys = 3) :=
  ⟨classify_eq_tierSpec polys, classify_range polys⟩

/-- C2: when classification yields tier 3 and the textured re-projection
succeeds, the conversion succeeds and the output UV buffer is the vertex
texture coordinates with a vertical flip: second component `1 - original`,
first and third components unchanged. -/
theorem claim_C2 (input : ObjInput) (raw : RawObj)
    (t : TypedObj TexturedVertex) (mesh : Mesh)
    (hp : input.parse = .ok raw) (h3 : classify raw.polygons = 3)
    (ht : raw.toTextured = .ok t) :
    (load_obj_from_bytes input mesh).fst = .ok () ∧
    (load_obj_from_bytes input mesh).snd.attrUv =
      some (t.vertices.map
        fun v => V3.mk v.texture.x (1 - v.texture.y) v.texture.z) := by
  rw [load_obj_from_bytes_ok hp, h3, build_three_ok ht]
  exact ⟨rfl, rfl⟩

def c2t : TypedObj TexturedVertex :=
  ⟨[⟨⟨1, 2, 3⟩, ⟨0, 0, 1⟩, ⟨0, 1/4, 0⟩⟩], [0, 0, 0]⟩

def c2raw : RawObj :=
  ⟨[Polygon.PNT [(0, 0, 0)]], .error ⟨"unused"⟩, .error ⟨"unused"⟩, .ok c2t⟩

def c2input : ObjInput := ⟨.ok c2raw⟩

/-- C2 witness: one fully textured triangle with texture second component
1/4; the output UV second component is 3/4. -/
theorem claim_C2_witness :
    (load_obj_from_bytes c2input (Mesh.new .TriangleList)).fst = .ok () ∧
    (load_obj_from_bytes c2input (Mesh.new .TriangleList)).snd.attrUv =
      some [⟨0, 3/4, 0⟩] := by
  have h := claim_C2 c2input c2raw c2t (Mesh.new .TriangleList) rfl
    (by decide) rfl
  refine ⟨h.1, ?_⟩
  rw [h.2]
  norm_num [c2t]

/-- C3: an input with at least one position-only polygon classifies to
tier 1 no matter what richer polygons are present, and on success the
output normal and UV buffers hold `[0, 0, 0]` for every vertex. -/
theorem claim_C3 (input : ObjInput) (raw : RawObj) (t : TypedObj Position)
    (mesh : Mesh) (hp : input.parse = .ok raw)
    (hP : ∃ vs, Polygon.P vs ∈ raw.polygons)
    (ht : raw.toPosition = .ok t) :
    classify raw.polygons = 1 ∧
    (load_obj_from_bytes input mesh).fst = .ok () ∧
    (load_obj_from_bytes input mesh).snd.attrNormal =
      some (t.vertices.map fun _ => zero3) ∧
    (load_obj_from_bytes input mesh).snd.attrUv =
      some (t.vertices.map fun _ => zero3) := by
  obtain ⟨vs, hmem⟩ := hP
  have h1 : classify raw.polygons = 1 := classify_one_of_P hmem
  refine ⟨h1, ?_⟩
  rw [load_obj_from_bytes_ok hp, h1, build_one_ok ht]
  exact ⟨rfl, rfl, rfl⟩

def c3t : TypedObj Position :=
  ⟨[⟨⟨1, 2, 3⟩⟩, ⟨⟨4, 5, 6⟩⟩], [0, 1, 1]⟩

def c3raw : RawObj :=
  ⟨[Polygon.P [0, 1, 2], Polygon.PNT [(0, 0, 0)]],
    .ok c3t, .error ⟨"unused"⟩, .error ⟨"unused"⟩⟩

def c3input : ObjInput := ⟨.ok c3raw⟩

/-- C3 witness: one position-only face mixed with one fully textured face;
the tier is 1 and the normal and UV buffers are all zero. -/
theorem claim_C3_witness :
    classify c3raw.polygons = 1 ∧
    (load_obj_from_bytes c3input (Mesh.new .TriangleList)).fst = .ok () ∧
    (load_obj_from_bytes c3input (Mesh.new .TriangleList)).snd.attrNormal =
      some [zero3, zero3] ∧
    (load_obj_from_bytes c3input (Mesh.new .TriangleList)).snd.attrUv =
      some [zero3, zero3] := by
  have h := claim_C3 c3input c3raw c3t (Mesh.new .TriangleList) rfl
    ⟨[0, 1, 2], by decide⟩ rfl
  refine ⟨h.1, h.2.1, ?_, ?_⟩
  · rw [h.2.2.1]; rfl
  · rw [h.2.2.2]; rfl

/-- C4: every successful conversion writes position, normal and UV
buffers of equal length, equal to the vertex count at the chosen tier,
and (under the external parser's triangle-list contract) an index buffer
whose length is a multiple of 3. -/
theorem claim_C4 (input : ObjInput) (raw : RawObj) (mesh : Mesh)
    (hp : input.parse = .ok raw) (hc : ParserContract raw)
    (hok : (load_obj_from_bytes input mesh).fst = .ok ()) :
    ∃ pos nor uv idx,
      (load_obj_from_bytes input mesh).snd.attrPosition = some pos ∧
      (load_obj_from_bytes input mesh).snd.attrNormal = some nor ∧
      (load_obj_from_bytes input mesh).snd.attrUv = some uv ∧
      (load_obj_from_bytes input mesh).snd.indices = some idx ∧
      nor.length = pos.length ∧ uv.length = pos.length ∧
      tierVertexCount raw = some pos.length ∧
      idx.length % 3 = 0 := by
  obtain ⟨hc1, hc2, hc3⟩ := hc
  rw [load_obj_from_bytes_ok hp] at hok ⊢
  rcases classify_range raw.polygons with h | h | h <;> rw [h] at hok ⊢
  · cases ht : raw.toPosition with
    | error e => rw [build_one_err ht] at hok; exact absurd hok (by simp)
    | ok t =>
      rw [build_one_ok ht]
      refine ⟨_, _, _, _, rfl, rfl, rfl, rfl, by simp, by simp, ?_, hc1 t ht⟩
      simp [tierVertexCount, h, ht]
      exact ⟨t, rfl, rfl⟩
  · cases ht : raw.toVertex with
    | error e => rw [build_two_err ht] at hok; exact absurd hok (by simp)
    | ok t =>
      rw [build_two_ok ht]
      refine ⟨_, _, _, _, rfl, rfl, rfl, rfl, by simp, by simp, ?_, hc2 t ht⟩
      simp [tierVertexCount, h, ht]
      exact ⟨t, rfl, rfl⟩
  · cases ht : raw.toTextured with
    | error e => rw [build_three_err ht] at hok; exact absurd hok (by simp)
    | ok t =>
      rw [build_three_ok ht]
      refine ⟨_, _, _, _, rfl, rfl, rfl, rfl, by simp, by simp, ?_, hc3 t ht⟩
      simp [tierVertexCount, h, ht]
      exact ⟨t, rfl, rfl⟩

def c4t : TypedObj Vertex :=
  ⟨[⟨⟨1, 0, 0⟩, ⟨0, 1, 0⟩⟩, ⟨⟨0, 2, 0⟩, ⟨0, 0, 1⟩⟩], [0, 1, 1]⟩

def c4raw : RawObj :=
  ⟨[Polygon.PN [(0, 0), (1, 1)]], .error ⟨"unused"⟩, .ok c4t,
    .error ⟨"unused"⟩⟩

def c4input : ObjInput := ⟨.ok c4raw⟩

/-- C4 witness: a position+normal input with two vertices and one
resolved triangle; all three attribute buffers have length two and the
index buffer length is 3. -/
theorem claim_C4_witness :
    c4input.parse = .ok c4raw ∧ ParserContract c4raw ∧
    (load_obj_from_bytes c4input (Mesh.new .TriangleList)).fst = .ok () ∧
    ∃ pos nor uv idx,
      (load_obj_from_bytes c4input (Mesh.new .TriangleList)).snd.attrPosition
        = some pos ∧
      (load_obj_from_bytes c4input (Mesh.new .TriangleList)).snd.attrNormal
        = some nor ∧
      (load_obj_from_bytes c4input (Mesh.new .TriangleList)).snd.attrUv
        = some uv ∧
      (load_obj_from_bytes c4input (Mesh.new .TriangleList)).snd.indices
        = some idx ∧
      nor.length = pos.length ∧ uv.length = pos.length ∧
      tierVertexCount c4raw = some pos.length ∧
      idx.length % 3 = 0 := by
  have hcontract : ParserContract c4raw := by
    refine ⟨fun t ht => ?_, fun t ht => ?_, fun t ht => ?_⟩
    · exact absurd ht (by simp [c4raw])
    · have : c4t = t := by simpa [c4raw] using ht
      subst this
      rfl
    · exact absurd ht (by simp [c4raw])
  exact ⟨rfl, hcontract, rfl,
    claim_C4 c4input c4raw (Mesh.new .TriangleList) rfl hcontract rfl⟩

def c5t : TypedObj TexturedVertex :=
  ⟨[⟨⟨0, 0, 0⟩, ⟨0, 0, 1⟩, ⟨0, 0, 1⟩⟩], [0, 0, 0]⟩

def c5raw : RawObj :=
  ⟨[Polygon.PNT [(0, 0, 0)]], .error ⟨"unused"⟩, .error ⟨"unused"⟩, .ok c5t⟩

def c5input : ObjInput := ⟨.ok c5raw⟩

/-- C5 counterexample: a successful tier-3 conversion whose source texture
has third component 1; the output UV buffer's entry has third component 1,
not 0, because the tier-3 branch passes `v.texture[2]` through unchanged. -/
theorem claim_C5_counterexample :
    (load_obj_from_bytes c5input (Mesh.new .TriangleList)).fst = .ok () ∧
    (load_obj_from_bytes c5input (Mesh.new .TriangleList)).snd.attrUv =
      some [⟨0, 1, 1⟩] ∧
    (V3.mk 0 1 1).z ≠ 0 := by
  refine ⟨rfl, ?_, by norm_num [V3.mk]⟩
  rw [@load_obj_from_bytes_ok c5input c5raw rfl (Mesh.new .TriangleList),
    show classify c5raw.polygons = 3 by decide,
    @build_three_ok c5raw c5t rfl (Mesh.new .TriangleList)]
  norm_num [c5t]

/-- C5 amended: for every successful conversion, at tiers 1 and 2 the
third component of every output UV entry is zero, and at tier 3 the third
components of the UV buffer equal the source textures' third components
unchanged, so at tier 3 they are all zero exactly when the source third
components are all zero. -/
theorem claim_C5 (input : ObjInput) (raw : RawObj) (mesh : Mesh)
    (hp : input.parse = .ok raw)
    (hok : (load_obj_from_bytes input mesh).fst = .ok ()) :
    ∀ uvs, (load_obj_from_bytes input mesh).snd.attrUv = some uvs →
      ((classify raw.polygons = 1 ∨ classify raw.polygons = 2) →
        ∀ v ∈ uvs, v.z = 0) ∧
      (∀ t, classify raw.polygons = 3 → raw.toTextured = .ok t →
        uvs.map (fun v => v.z) = t.vertices.map (fun v => v.texture.z) ∧
        ((∀ v ∈ uvs, v.z = 0) ↔ ∀ w ∈ t.vertices, w.texture.z = 0)) := by
  rw [load_obj_from_bytes_ok hp] at hok ⊢
  rcases classify_range raw.polygons with h | h | h <;> rw [h] at hok ⊢
  · cases ht : raw.toPosition with
    | error e => rw [build_one_err ht] at hok; exact absurd hok (by simp)
    | ok t =>
      rw [build_one_ok ht]
      intro uvs huv
      simp only [Option.some.injEq] at huv
      subst huv
      refine ⟨fun _ v hv => ?_, fun t' h13 => absurd h13 (by omega)⟩
      simp only [List.mem_map] at hv
      obtain ⟨w, _, rfl⟩ := hv
      rfl
  · cases ht : raw.toVertex with
    | error e => rw [build_two_err ht] at hok; exact absurd hok (by simp)
    | ok t =>
      rw [build_two_ok ht]
      intro uvs huv
      simp only [Option.some.injEq] at huv
      subst huv
      refine ⟨fun _ v hv => ?_, fun t' h13 => absurd h13 (by omega)⟩
      simp only [List.mem_map] at hv
      obtain ⟨w, _, rfl⟩ := hv
      rfl
  · cases ht : raw.toTextured with
    | error e => rw [build_three_err ht] at hok; exact absurd hok (by simp)
    | ok t =>
      rw [build_three_ok ht]
      intro uvs huv
      simp only [Option.some.injEq] at huv
      subst huv
      refine ⟨fun h12 => absurd h12 (by omega), ?_⟩
      intro t' _ ht'
      obtain rfl : t = t' := Except.ok.inj ht'
      refine ⟨by simp only [List.map_map]; rfl, ?_, ?_⟩
      · intro hall w hw
        exact hall (V3.mk w.texture.x (1 - w.texture.y) w.texture.z)
          (List.mem_map_of_mem _ hw)
      · intro hall v hv
        simp only [List.mem_map] at hv
        obtain ⟨w, hw, rfl⟩ := hv
        exact hall w hw

def c5wt : TypedObj TexturedVertex :=
  ⟨[⟨⟨0, 0, 0⟩, ⟨0, 0, 1⟩, ⟨1/2, 1/2, 0⟩⟩], [0, 0, 0]⟩

def c5wraw : RawObj :=
  ⟨[Polygon.PNT [(0, 0, 0)]], .error ⟨"unused"⟩, .error ⟨"unused"⟩,
    .ok c5wt⟩

def c5winput : ObjInput := ⟨.ok c5wraw⟩

/-- C5 witness: a concrete tier-3 conversion; the output UV third
components equal the source texture third components, and since the
source third components are zero here, the output entry's is zero. -/
theorem claim_C5_witness :
    (load_obj_from_bytes c5winput (Mesh.new .TriangleList)).snd.attrUv =
      some [⟨1/2, 1/2, 0⟩] ∧
    [(⟨1/2, 1/2, 0⟩ : V3)].map (fun v => v.z) =
      c5wt.vertices.map (fun v => v.texture.z) ∧
    (V3.mk (1/2) (1/2) 0).z = 0 := by
  have huv : (load_obj_from_bytes c5winput (Mesh.new .TriangleList)).snd.attrUv
      = some [⟨1/2, 1/2, 0⟩] := by
    rw [@load_obj_from_bytes_ok c5winput c5wraw rfl (Mesh.new .TriangleList),
      show classify c5wraw.polygons = 3 by decide,
      @build_three_ok c5wraw c5wt rfl (Mesh.new .TriangleList)]
    norm_num [c5wt]
  have h := claim_C5 c5winput c5wraw (Mesh.new .TriangleList) rfl rfl
    [⟨1/2, 1/2, 0⟩] huv
  have h3 := h.2 c5wt (by decide) rfl
  refine ⟨huv, h3.1, ?_⟩
  refine h3.2.mpr ?_ ⟨1/2, 1/2, 0⟩ (List.mem_singleton.mpr rfl)
  intro w hw
  simp only [c5wt, List.mem_singleton] at hw
  subst hw
  rfl

/-- C6: an input with at least one polygon, all of them position+normal,
classifies to tier 2; on success the UV buffer is all-zero and the normal
buffer passes the source normals through unchanged. -/
theorem claim_C6 (input : ObjInput) (raw : RawObj) (t : TypedObj Vertex)
    (mesh : Mesh) (hp : input.parse = .ok raw) (hne : raw.polygons ≠ [])
    (hPN : ∀ p ∈ raw.polygons, ∃ vs, p = Polygon.PN vs)
    (ht : raw.toVertex = .ok t) :
    classify raw.polygons = 2 ∧
    (load_obj_from_bytes input mesh).fst = .ok () ∧
    (load_obj_from_bytes input mesh).snd.attrUv =
      some (t.vertices.map fun _ => zero3) ∧
    (load_obj_from_bytes input mesh).snd.attrNormal =
      some (t.vertices.map fun v => v.normal) := by
  have h2 := classify_two_of_all_PN hne hPN
  refine ⟨h2, ?_⟩
  rw [load_obj_from_bytes_ok hp, h2, build_two_ok ht]
  exact ⟨rfl, rfl, rfl⟩

def c6t : TypedObj Vertex :=
  ⟨[⟨⟨1, 2, 3⟩, ⟨7, 8, 9⟩⟩], [0, 0, 0]⟩

def c6raw : RawObj :=
  ⟨[Polygon.PN [(0, 0), (0, 0), (0, 0)]], .error ⟨"unused"⟩, .ok c6t,
    .error ⟨"unused"⟩⟩

def c6input : ObjInput := ⟨.ok c6raw⟩

/-- C6 witness: a single position+normal face; the tier is 2, the UV
buffer is zero and the normal buffer carries the source normal `(7,8,9)`. -/
theorem claim_C6_witness :
    classify c6raw.polygons = 2 ∧
    (load_obj_from_bytes c6input (Mesh.new .TriangleList)).fst = .ok () ∧
    (load_obj_from_bytes c6input (Mesh.new .TriangleList)).snd.attrUv =
      some [zero3] ∧
    (load_obj_from_bytes c6input (Mesh.new .TriangleList)).snd.attrNormal =
      some [⟨7, 8, 9⟩] := by
  have h := claim_C6 c6input c6raw c6t (Mesh.new .TriangleList) rfl
    (by decide) (fun p hp => ⟨[(0, 0), (0, 0), (0, 0)], by
      simpa [c6raw] using hp⟩) rfl
  exact ⟨h.1, h.2.1, by rw [h.2.2.1]; rfl, by rw [h.2.2.2]; rfl⟩

/-- C7: an input that parses to an empty polygon list defaults to tier 3,
and when the textured re-projection yields no vertices and no indices the
builder succeeds with zero-length position, normal, UV and index buffers. -/
theorem claim_C7 (input : ObjInput) (raw : RawObj) (mesh : Mesh)
    (hp : input.parse = .ok raw) (hnil : raw.polygons = [])
    (ht : raw.toTextured = .ok ⟨[], []⟩) :
    classify raw.polygons = 3 ∧
    (load_obj_from_bytes input mesh).fst = .ok () ∧
    (load_obj_from_bytes input mesh).snd.attrPosition = some [] ∧
    (load_obj_from_bytes input mesh).snd.attrNormal = some [] ∧
    (load_obj_from_bytes input mesh).snd.attrUv = some [] ∧
    (load_obj_from_bytes input mesh).snd.indices = some [] := by
  have h3 : classify raw.polygons = 3 := by rw [hnil]; rfl
  refine ⟨h3, ?_⟩
  rw [load_obj_from_bytes_ok hp, h3, build_three_ok ht]
  exact ⟨rfl, rfl, rfl, rfl, rfl⟩

def c7raw : RawObj :=
  ⟨[], .error ⟨"unused"⟩, .error ⟨"unused"⟩, .ok ⟨[], []⟩⟩

def c7input : ObjInput := ⟨.ok c7raw⟩

/-- C7 witness: the empty polygon list; tier 3 and four empty buffers. -/
theorem claim_C7_witness :
    classify c7raw.polygons = 3 ∧
    (load_obj_from_bytes c7input (Mesh.new .TriangleList)).fst = .ok () ∧
    (load_obj_from_bytes c7input (Mesh.new .TriangleList)).snd.attrPosition
      = some [] ∧
    (load_obj_from_bytes c7input (Mesh.new .TriangleList)).snd.attrNormal
      = some [] ∧
    (load_obj_from_bytes c7input (Mesh.new .TriangleList)).snd.attrUv
      = some [] ∧
    (load_obj_from_bytes c7input (Mesh.new .TriangleList)).snd.indices
      = some [] :=
  claim_C7 c7input c7raw (Mesh.new .TriangleList) rfl rfl rfl

/-- C8: the builder returns `UnknownVertexFormat` exactly when the tier
value is outside (1, 2, 3), and that branch is unreachable whenever the
tier comes from the classifier. -/
theorem claim_C8 :
    (∀ (pnt : Nat) (raw : RawObj) (mesh : Mesh),
      (build pnt raw mesh).fst = .error .UnknownVertexFormat ↔
        pnt ≠ 1 ∧ pnt ≠ 2 ∧ pnt ≠ 3) ∧
    (∀ (polys : List Polygon) (raw : RawObj) (mesh : Mesh),
      (build (classify polys) raw mesh).fst ≠
        .error .UnknownVertexFormat) := by
  refine ⟨fun pnt raw mesh => build_unknown_iff pnt raw mesh, ?_⟩
  intro polys raw mesh h
  have hiff := (build_unknown_iff (classify polys) raw mesh).mp h
  rcases classify_range polys with hc | hc | hc <;> rw [hc] at hiff <;>
    omega

def c8raw : RawObj :=
  ⟨[], .error ⟨"projection failed"⟩, .error ⟨"unused"⟩, .ok ⟨[], []⟩⟩

/-- C8 witness: tier value 0 hits the `UnknownVertexFormat` branch, and a
classifier-produced tier never does. -/
theorem claim_C8_witness :
    (build 0 c8raw (Mesh.new .TriangleList)).fst =
      .error .UnknownVertexFormat ∧
    (build (classify [Polygon.P []]) c8raw (Mesh.new .TriangleList)).fst ≠
      .error .UnknownVertexFormat :=
  ⟨(claim_C8.1 0 c8raw (Mesh.new .TriangleList)).mpr (by omega),
    claim_C8.2 [Polygon.P []] c8raw (Mesh.new .TriangleList)⟩

/-- C9: when the upstream parser rejects the bytes, `load_obj` fails with
the malformed-input kind wrapping the parser's diagnostic unchanged, and
the load context is left untouched: no mesh is registered as the load's
default asset. -/
theorem claim_C9 (input : ObjInput) (ctx : LoadContext) (e : ParseErr)
    (he : input.parse = .error e) :
    load_obj input ctx = (.error (.Gltf e), ctx) := by
  unfold load_obj
  rw [load_obj_from_bytes_err he]

def c9input : ObjInput := ⟨.error ⟨"truncated file"⟩⟩

/-- C9 witness: a rejected byte buffer propagates its diagnostic and
registers nothing on a context with no asset. -/
theorem claim_C9_witness :
    load_obj c9input ⟨none⟩ =
      (.error (.Gltf ⟨"truncated file"⟩), (⟨none⟩ : LoadContext)) :=
  claim_C9 c9input ⟨none⟩ ⟨"truncated file"⟩ rfl

/-- C10: whenever `load_obj_from_bytes` returns an error, the mesh passed
to it is unchanged: no buffer write happens before every fallible step of
the chosen branch has succeeded. -/
theorem claim_C10 (input : ObjInput) (mesh : Mesh) (err : ObjError)
    (h : (load_obj_from_bytes input mesh).fst = .error err) :
    (load_obj_from_bytes input mesh).snd = mesh := by
  cases hp : input.parse with
  | error e => rw [load_obj_from_bytes_err hp]
  | ok raw =>
    rw [load_obj_from_bytes_ok hp] at h ⊢
    exact build_error_mesh_eq h

def c10raw : RawObj :=
  ⟨[Polygon.P [0, 1, 2]], .error ⟨"bad index"⟩, .error ⟨"unused"⟩,
    .error ⟨"unused"⟩⟩

def c10input : ObjInput := ⟨.ok c10raw⟩

/-- C10 witness: parsing succeeds but the tier-1 re-projection fails; the
mesh sink comes back exactly as it went in. -/
theorem claim_C10_witness :
    (load_obj_from_bytes c10input (Mesh.new .TriangleList)).snd =
      Mesh.new .TriangleList :=
  claim_C10 c10input (Mesh.new .TriangleList) (.Gltf ⟨"bad index"⟩) rfl

end BevyObj
